import Mathlib

/-!
Shallow embedding of the meal-attendance application (`src/app.py`).

The application is a Streamlit page built around three pieces of logic:

* a phone-normalization helper `_clean_phone` (line 42) together with the
  `[-4:]` last-four extraction used at lines 63 and 147;
* a roster loader `load_master_df` (lines 46-70) that fetches a CSV table,
  validates the required columns and normalizes each row;
* an attendance recorder: the form handler (lines 146-169) that resolves the
  submitted fragment against the roster, the log writer `append_log`
  (lines 73-91), the log reader `load_log` (lines 94-97) and the admin clear
  action `LOG_FILE.unlink(missing_ok=True)` (line 204).

Pure data is embedded directly: strings are Lean `String`s (lists of
characters), a fetched CSV table is a header list plus rows of cell
associations, the log file is `Option LogCSV` (`none` = the file does not
exist).  Effects are made explicit: the network fetch becomes an
`Except String Table` argument, `datetime.now` becomes a `Timestamp`
argument, and the Streamlit `st.warning`/`st.error` calls of the loader
become a `LoadSignal` result component.
-/

namespace MealAttendance

/-- `_clean_phone` (app.py line 42-43): `re.sub(r"\D", "", str(s or ""))` —
remove every non-digit character from the string. -/
def clean_phone (s : String) : String :=
  ⟨s.data.filter Char.isDigit⟩

/-- Python slicing `s[-4:]` (app.py lines 63 and 147): the last 4 characters
of `s`, or all of `s` when it has fewer than 4 characters. -/
def lastTake (n : Nat) (s : String) : String :=
  ⟨s.data.drop (s.data.length - n)⟩

/-- The fragment normalization performed by the form handler (app.py line
147): `re.sub(r"\D", "", phone_last4 or "")[-4:]`. -/
def normalizeFragment (input : String) : String :=
  lastTake 4 (clean_phone input)

/-- One normalized row of the master list, as produced by `load_master_df`
(app.py lines 61-70): the raw `FullName` cell, the digit-stripped `Phone`,
the derived `PhoneLast4` and `FullNameNorm`, and the four optional
identifier columns (synthesized as `""` when absent from the source). -/
structure RosterEntry where
  fullName : String
  phone : String
  phoneLast4 : String
  fullNameNorm : String
  employeeID : String
  traineeID : String
  batchStart : String
  batchEnd : String
deriving DecidableEq, Repr, Inhabited

/-- A fetched CSV table as `pd.read_csv(url, dtype=str).fillna("")` delivers
it: a header (column list) and one cell association list per row. -/
structure Table where
  columns : List String
  rows : List (List (String × String))
deriving DecidableEq, Repr

/-- `REQUIRED_COLS = {"FullName", "Phone"}` (app.py line 37), listed in
sorted order so that `sorted(missing)` (line 58) is a plain filter. -/
def REQUIRED_COLS : List String := ["FullName", "Phone"]

/-- Reading one cell of a row; a column missing from the row reads as `""`
(the `fillna("")` of app.py line 51). -/
def getCell (row : List (String × String)) (c : String) : String :=
  (row.lookup c).getD ""

/-- An optional identifier column (app.py lines 67-69): the cell value when
the column exists in the source, `""` otherwise. -/
def optCol (cols : List String) (row : List (String × String)) (c : String) :
    String :=
  if c ∈ cols then getCell row c else ""

/-- Row normalization of `load_master_df` (app.py lines 61-69): strip the
phone to digits, derive `PhoneLast4` as `s[-4:] if len(s) >= 4 else s`,
derive `FullNameNorm` by strip + lower, and widen the schema with the four
optional columns. -/
def mkEntry (cols : List String) (row : List (String × String)) :
    RosterEntry :=
  let phone := clean_phone (getCell row "Phone")
  { fullName := getCell row "FullName"
    phone := phone
    phoneLast4 := if 4 ≤ phone.length then lastTake 4 phone else phone
    fullNameNorm := (getCell row "FullName").trim.toLower
    employeeID := optCol cols row "EmployeeID"
    traineeID := optCol cols row "TraineeID"
    batchStart := optCol cols row "BatchStart"
    batchEnd := optCol cols row "BatchEnd" }

/-- The diagnostic signal the loader surfaces through `st.warning`/`st.error`
(app.py lines 48, 53, 58): nothing on success, the configuration warning for
an empty URL, the fetch-failure message with its cause, or the
missing-required-columns message with the sorted missing list. -/
inductive LoadSignal where
  | loaded
  | configurationMissing
  | sourceUnavailable (cause : String)
  | schemaInvalid (missing : List String)
deriving DecidableEq, Repr

/-- `load_master_df` (app.py lines 46-70).  The network fetch
(`pd.read_csv(sheet_url, ...)` inside `try/except`) is passed in as an
`Except String Table`: `.error e` is the exception branch with its message.
Every branch returns a roster plus the signal shown to the user; an empty
URL, a failed fetch, or missing required columns all yield the empty
roster. -/
def load_master_df (sheet_url : String) (fetch : Except String Table) :
    List RosterEntry × LoadSignal :=
  if sheet_url = "" then ([], .configurationMissing)
  else
    match fetch with
    | .error e => ([], .sourceUnavailable e)
    | .ok df =>
        let missing := REQUIRED_COLS.filter (fun c => decide (c ∉ df.columns))
        if missing.isEmpty then
          (df.rows.map (mkEntry df.columns), .loaded)
        else
          ([], .schemaInvalid missing)

/-- The local timestamp taken by `append_log` (app.py lines 74-78):
`datetime.now(IST)` rendered three ways. Passed in explicitly since it is an
effect. -/
structure Timestamp where
  iso : String
  date : String
  time : String
deriving DecidableEq, Repr

/-- One row appended to `meal_log.csv` (the dict built at app.py lines
75-83). -/
structure AttendanceRecord where
  timestampISO : String
  date : String
  time : String
  fullName : String
  phoneLast4 : String
  employeeID : String
  traineeID : String
deriving DecidableEq, Repr

/-- The header of `meal_log.csv`: the key list of the dict built in
`append_log` (app.py lines 75-83), which `to_csv` writes as the header row;
also the column list of the empty frame returned by `load_log` (line 97). -/
def logHeader : List String :=
  ["TimestampISO", "Date", "Time", "FullName", "PhoneLast4", "EmployeeID",
    "TraineeID"]

/-- The CSV cell row of an `AttendanceRecord`, in `logHeader` order. -/
def recordRow (r : AttendanceRecord) : List String :=
  [r.timestampISO, r.date, r.time, r.fullName, r.phoneLast4, r.employeeID,
    r.traineeID]

/-- Contents of an existing `meal_log.csv`: its header row and its data
rows. -/
structure LogCSV where
  header : List String
  rows : List (List String)
deriving DecidableEq, Repr

/-- Building the record appended by `append_log` (app.py lines 74-83):
timestamp fields from the clock, the four identity fields copied from the
matched roster row via `row.get(..., "")`. -/
def mkRecord (ts : Timestamp) (row : RosterEntry) : AttendanceRecord :=
  { timestampISO := ts.iso
    date := ts.date
    time := ts.time
    fullName := row.fullName
    phoneLast4 := row.phoneLast4
    employeeID := row.employeeID
    traineeID := row.traineeID }

/-- `append_log` (app.py lines 73-91) acting on the log file state
(`Option LogCSV`, `none` = `LOG_FILE` does not exist): build the new record,
read the old file if it exists and concatenate (for the files this app
writes the old header equals `logHeader`, so `pd.concat` appends the row),
otherwise start a fresh frame whose header is the record's key list; write
the result and return it together with the new record (the function's return
value at line 91). -/
def append_log (ts : Timestamp) (row : RosterEntry) (file : Option LogCSV) :
    LogCSV × AttendanceRecord :=
  let new := mkRecord ts row
  match file with
  | some dfOld => ({ header := dfOld.header, rows := dfOld.rows ++ [recordRow new] }, new)
  | none => ({ header := logHeader, rows := [recordRow new] }, new)

/-- `load_log` (app.py lines 94-97): the file contents when it exists,
otherwise an empty frame with the `logHeader` columns. -/
def load_log (file : Option LogCSV) : LogCSV :=
  match file with
  | some f => f
  | none => { header := logHeader, rows := [] }

/-- The admin clear action (app.py line 204): `LOG_FILE.unlink(missing_ok=True)`
deletes the file unconditionally; a missing file is not an error. -/
def clear_log (_file : Option LogCSV) : Option LogCSV :=
  none

/-- Sequentially appending a batch of markings to the log file state, each
through `append_log`. -/
def appendMany (items : List (Timestamp × RosterEntry))
    (file : Option LogCSV) : Option LogCSV :=
  items.foldl (fun f p => some (append_log p.1 p.2 f).1) file

/-- Outcome of one form submission (app.py lines 146-169): the four error /
success branches of the handler.  `masterEmpty` is the
"Master sheet not loaded" branch (line 151), `invalidFragment` the
"Please enter exactly 4 digits" branch (line 149). -/
inductive SubmitOutcome where
  | invalidFragment
  | masterEmpty
  | noMatch
  | unique (entry : RosterEntry)
  | ambiguous (candidates : List RosterEntry)
deriving DecidableEq, Repr

/-- The matching part of the form handler (app.py lines 150-163): guard the
empty master, filter on `PhoneLast4 == last4`, then branch on zero / one /
many matched rows (`.iloc[0]` is the head of the filtered frame). -/
def resolveFragment (roster : List RosterEntry) (last4 : String) :
    SubmitOutcome :=
  if roster.isEmpty then .masterEmpty
  else if (roster.filter fun e => decide (e.phoneLast4 = last4)).isEmpty then
    .noMatch
  else if (roster.filter fun e => decide (e.phoneLast4 = last4)).length = 1 then
    .unique ((roster.filter fun e => decide (e.phoneLast4 = last4)).headD default)
  else
    .ambiguous (roster.filter fun e => decide (e.phoneLast4 = last4))

/-- The full form handler (app.py lines 146-163): normalize the input to its
last four digits, reject when fewer than 4 digits remain, then match. -/
def handleSubmit (roster : List RosterEntry) (input : String) :
    SubmitOutcome :=
  if (normalizeFragment input).length < 4 then .invalidFragment
  else resolveFragment roster (normalizeFragment input)

/-- One submission together with its effect on the log file (app.py lines
146-159): only the unique-match branch calls `append_log`; every other
branch leaves the file untouched (the ambiguous branch writes only after a
later selection, see `selectAndLog`). -/
def submitAndLog (roster : List RosterEntry) (input : String)
    (ts : Timestamp) (file : Option LogCSV) :
    SubmitOutcome × Option LogCSV :=
  match handleSubmit roster input with
  | .unique e => (.unique e, some (append_log ts e file).1)
  | o => (o, file)

/-- The label shown for one candidate in the disambiguation select box
(app.py line 163): `f"{r.FullName} (Emp:{r.EmployeeID}, Trainee:{r.TraineeID})"`. -/
def candidateLabel (r : RosterEntry) : String :=
  r.fullName ++ " (Emp:" ++ r.employeeID ++ ", Trainee:" ++ r.traineeID ++ ")"

/-- The disambiguation step (app.py lines 163-167) when the caller picks the
`i`-th entry of the select box: the widget yields the chosen label string
(`choice`), the handler recovers an index with `options.index(choice)` —
the FIRST occurrence of that label — and takes that row of the matched list.
`none` when `i` is out of range (no selection made). -/
def selectCandidate (cands : List RosterEntry) (i : Nat) :
    Option RosterEntry :=
  let options := cands.map candidateLabel
  match options.get? i with
  | none => none
  | some choice =>
      let idx := options.findIdx (fun y => decide (y = choice))
      cands.get? idx

/-- Selection followed by the write (app.py lines 165-168): the chosen row
is appended through `append_log`. -/
def selectAndLog (cands : List RosterEntry) (i : Nat) (ts : Timestamp)
    (file : Option LogCSV) : Option (LogCSV × AttendanceRecord) :=
  (selectCandidate cands i).map (fun e => append_log ts e file)

/-! ### Basic lemmas about the normalization -/

theorem clean_phone_data (s : String) :
    (clean_phone s).data = s.data.filter Char.isDigit := rfl

theorem lastTake_data (n : Nat) (s : String) :
    (lastTake n s).data = s.data.drop (s.data.length - n) := rfl

theorem string_length_eq_data (s : String) : s.length = s.data.length := rfl

/-- The length of `s[-4:]` is `min 4 (len s)`. -/
theorem lastTake_length (n : Nat) (s : String) :
    (lastTake n s).length = min n s.length := by
  simp only [string_length_eq_data, lastTake_data, List.length_drop]
  omega

/-- Every character of a cleaned phone string is a digit. -/
theorem clean_phone_digits (s : String) :
    ∀ c ∈ (clean_phone s).data, c.isDigit := by
  intro c hc
  rw [clean_phone_data] at hc
  exact (List.mem_filter.mp hc).2

/-- Cleaning a string all of whose characters are digits changes nothing. -/
theorem clean_phone_of_digits (s : String) (h : ∀ c ∈ s.data, c.isDigit) :
    clean_phone s = s := by
  cases s with
  | mk data =>
      simp only [clean_phone]
      congr 1
      exact List.filter_eq_self.mpr (fun c hc => h c hc)

/-- `s[-4:]` of a string of length at most 4 is the whole string. -/
theorem lastTake_of_short (n : Nat) (s : String) (h : s.length ≤ n) :
    lastTake n s = s := by
  cases s with
  | mk data =>
      simp only [lastTake]
      congr 1
      have h' : data.length ≤ n := h
      have : data.length - n = 0 := by omega
      rw [this, List.drop_zero]

/-- The roster-side last-4 derivation (app.py line 63) equals the plain
slice `s[-4:]`: the `len(s) >= 4` guard is redundant. -/
theorem roster_last4_eq_lastTake (s : String) :
    (if 4 ≤ s.length then lastTake 4 s else s) = lastTake 4 s := by
  split
  · rfl
  · rename_i h
    exact (lastTake_of_short 4 s (by omega)).symm

/-- Every character of a normalized fragment is a digit. -/
theorem normalizeFragment_digits (p : String) :
    ∀ c ∈ (normalizeFragment p).data, c.isDigit := by
  intro c hc
  have h1 : c ∈ (clean_phone p).data := List.drop_subset _ _ hc
  exact clean_phone_digits p c h1

/-- A normalized fragment has at most 4 characters. -/
theorem normalizeFragment_length_le (p : String) :
    (normalizeFragment p).length ≤ 4 := by
  have h := lastTake_length 4 (clean_phone p)
  have h2 : (normalizeFragment p).length = min 4 (clean_phone p).length := h
  omega

/-- Fragment normalization is idempotent. -/
theorem normalizeFragment_idem (p : String) :
    normalizeFragment (normalizeFragment p) = normalizeFragment p := by
  show lastTake 4 (clean_phone (normalizeFragment p)) = normalizeFragment p
  rw [clean_phone_of_digits _ (normalizeFragment_digits p)]
  exact lastTake_of_short 4 _ (normalizeFragment_length_le p)

/-- The roster-side `PhoneLast4` of `mkEntry` is exactly the fragment
normalization of the raw `Phone` cell. -/
theorem mkEntry_phoneLast4 (cols : List String)
    (row : List (String × String)) :
    (mkEntry cols row).phoneLast4 = normalizeFragment (getCell row "Phone") :=
  roster_last4_eq_lastTake (clean_phone (getCell row "Phone"))

/-- C2: for every phone string `p`, the normalization (strip non-digits,
then take the last 4 characters, or everything if fewer remain) yields a
string of digit characters only, of length at most 4, and is idempotent;
moreover the loader's `PhoneLast4` derivation (app.py line 63) computes this
same normalization of the raw `Phone` cell. -/
theorem normalize_digit_bound_idem (p : String) :
    (∀ c ∈ (normalizeFragment p).data, c.isDigit) ∧
    (normalizeFragment p).length ≤ 4 ∧
    normalizeFragment (normalizeFragment p) = normalizeFragment p ∧
    (∀ cols row, (mkEntry cols row).phoneLast4 =
      normalizeFragment (getCell row "Phone")) :=
  ⟨normalizeFragment_digits p, normalizeFragment_length_le p,
    normalizeFragment_idem p, fun cols row => mkEntry_phoneLast4 cols row⟩

/-- The matching stage never produces the `invalidFragment` outcome. -/
theorem resolveFragment_ne_invalid (roster : List RosterEntry) (k : String) :
    resolveFragment roster k ≠ .invalidFragment := by
  unfold resolveFragment
  split
  · simp
  · split
    · simp
    · split <;> simp

/-- When the input contains at least 4 digits, the handler proceeds to the
matching stage on the normalized fragment. -/
theorem handleSubmit_of_valid (roster : List RosterEntry) (input : String)
    (h : 4 ≤ (clean_phone input).length) :
    handleSubmit roster input =
      resolveFragment roster (normalizeFragment input) := by
  have hlen : (normalizeFragment input).length = min 4 (clean_phone input).length :=
    lastTake_length 4 (clean_phone input)
  unfold handleSubmit
  rw [if_neg (by omega)]

/-- C10: an input whose digit-stripped form has more than 4 digits is not
rejected: the length check happens after truncation to the last 4 digits,
so the handler matches on `lastTake 4` of the stripped input. -/
theorem long_input_not_rejected (roster : List RosterEntry) (input : String)
    (h : 4 < (clean_phone input).length) :
    handleSubmit roster input =
      resolveFragment roster (lastTake 4 (clean_phone input)) ∧
    handleSubmit roster input ≠ .invalidFragment := by
  have h1 := handleSubmit_of_valid roster input (by omega)
  refine ⟨h1, ?_⟩
  rw [h1]
  exact resolveFragment_ne_invalid roster (normalizeFragment input)

/-- Witness for `long_input_not_rejected` at the concrete input
`"98765-43210"` (11 digits). -/
theorem long_input_not_rejected_witness :
    4 < (clean_phone "98765-43210").length ∧
    handleSubmit [] "98765-43210" =
      resolveFragment [] (lastTake 4 (clean_phone "98765-43210")) ∧
    handleSubmit [] "98765-43210" ≠ .invalidFragment :=
  ⟨by decide, long_input_not_rejected [] "98765-43210" (by decide)⟩

/-! ### Matching-stage lemmas -/

/-- Matching when the filter finds exactly one entry: that entry is the
outcome. -/
theorem resolveFragment_of_single (roster : List RosterEntry) (k : String)
    (e : RosterEntry)
    (h : roster.filter (fun x => decide (x.phoneLast4 = k)) = [e]) :
    resolveFragment roster k = .unique e := by
  cases roster with
  | nil => simp at h
  | cons a t =>
      unfold resolveFragment
      rw [h]
      simp

/-- Matching over a non-empty roster with no entry sharing the fragment:
the outcome is `noMatch`. -/
theorem resolveFragment_of_none (roster : List RosterEntry) (k : String)
    (hne : roster ≠ [])
    (h : roster.filter (fun x => decide (x.phoneLast4 = k)) = []) :
    resolveFragment roster k = .noMatch := by
  cases roster with
  | nil => exact absurd rfl hne
  | cons a t =>
      unfold resolveFragment
      rw [h]
      simp

/-- Matching when at least two entries share the fragment: the outcome is
the ambiguous candidate list, i.e. the whole filtered sub-roster. -/
theorem resolveFragment_of_many (roster : List RosterEntry) (k : String)
    (h2 : 2 ≤ (roster.filter (fun x => decide (x.phoneLast4 = k))).length) :
    resolveFragment roster k =
      .ambiguous (roster.filter (fun x => decide (x.phoneLast4 = k))) := by
  cases roster with
  | nil => simp at h2
  | cons a t =>
      have hne : ((a :: t).filter (fun x => decide (x.phoneLast4 = k))).isEmpty = false := by
        rcases hfe : (a :: t).filter (fun x => decide (x.phoneLast4 = k)) with _ | ⟨b, u⟩
        · rw [hfe] at h2; simp at h2
        · rw [hfe]; rfl
      have hlen : ((a :: t).filter (fun x => decide (x.phoneLast4 = k))).length ≠ 1 := by
        omega
      unfold resolveFragment
      rw [if_neg (by simp), if_neg (by simp [hne]), if_neg hlen]

/-! ### Concrete data used by witnesses and counterexamples -/

/-- A fixed timestamp standing in for `datetime.now(IST)`. -/
def ts0 : Timestamp :=
  { iso := "2026-10-12T09:00:00+05:30", date := "2026-10-12",
    time := "09:00:00" }

/-- The roster entry the loader produces from the row
`{FullName: "Asha Rao", Phone: "+91 98765-43210"}` of the spec's example. -/
def wEntryAsha : RosterEntry :=
  { fullName := "Asha Rao", phone := "919876543210", phoneLast4 := "3210",
    fullNameNorm := "asha rao", employeeID := "", traineeID := "",
    batchStart := "", batchEnd := "" }

/-- A roster entry whose raw phone has only 3 digits, so its derived
`PhoneLast4` is the 3-character string `"123"` (app.py line 63 keeps the
whole string when it is shorter than 4). -/
def shortPhoneEntry : RosterEntry :=
  { fullName := "Short One", phone := "123", phoneLast4 := "123",
    fullNameNorm := "short one", employeeID := "", traineeID := "",
    batchStart := "", batchEnd := "" }

/-- A second roster entry sharing the 3-digit `PhoneLast4` `"123"`. -/
def shortPhoneEntry2 : RosterEntry :=
  { fullName := "Short Two", phone := "123", phoneLast4 := "123",
    fullNameNorm := "short two", employeeID := "", traineeID := "",
    batchStart := "", batchEnd := "" }

/-! ### C1 — unique match writes the matched entry's data -/

/-- Amended C1: for a fragment carrying at least 4 digits, if exactly one
roster entry's `PhoneLast4` equals the normalized fragment, the handler
resolves to exactly that entry and the submission appends exactly one
record whose `FullName`, `PhoneLast4`, `EmployeeID` and `TraineeID` are
copied verbatim from it. -/
theorem unique_match_writes_record (roster : List RosterEntry)
    (input : String) (e : RosterEntry) (ts : Timestamp)
    (file : Option LogCSV)
    (hlen : 4 ≤ (clean_phone input).length)
    (huniq : roster.filter
      (fun x => decide (x.phoneLast4 = normalizeFragment input)) = [e]) :
    handleSubmit roster input = .unique e ∧
    submitAndLog roster input ts file =
      (.unique e,
        some { header := (load_log file).header,
               rows := (load_log file).rows ++ [recordRow (mkRecord ts e)] }) ∧
    (mkRecord ts e).fullName = e.fullName ∧
    (mkRecord ts e).phoneLast4 = e.phoneLast4 ∧
    (mkRecord ts e).employeeID = e.employeeID ∧
    (mkRecord ts e).traineeID = e.traineeID := by
  have h1 : handleSubmit roster input = .unique e := by
    rw [handleSubmit_of_valid roster input hlen]
    exact resolveFragment_of_single roster _ e huniq
  refine ⟨h1, ?_, rfl, rfl, rfl, rfl⟩
  unfold submitAndLog
  rw [h1]
  cases file with
  | none => rfl
  | some f => rfl

/-- Witness for `unique_match_writes_record`: the spec's example roster
`[Asha Rao]` with fragment `"3210"`. -/
theorem unique_match_writes_record_witness :
    handleSubmit [wEntryAsha] "3210" = .unique wEntryAsha ∧
    submitAndLog [wEntryAsha] "3210" ts0 none =
      (.unique wEntryAsha,
        some { header := (load_log none).header,
               rows := (load_log none).rows ++
                 [recordRow (mkRecord ts0 wEntryAsha)] }) :=
  ⟨(unique_match_writes_record [wEntryAsha] "3210" wEntryAsha ts0 none
      (by decide) (by decide)).1,
   (unique_match_writes_record [wEntryAsha] "3210" wEntryAsha ts0 none
      (by decide) (by decide)).2.1⟩

/-- Counterexample to C1 as stated: with the one-entry roster
`[shortPhoneEntry]` (derived `PhoneLast4 = "123"`) and submitted fragment
`"123"`, exactly one entry's `PhoneLast4` equals the normalized fragment,
yet the handler rejects the submission as too short and appends nothing. -/
theorem unique_short_match_counterexample :
    [shortPhoneEntry].filter
      (fun x => decide (x.phoneLast4 = normalizeFragment "123")) =
      [shortPhoneEntry] ∧
    handleSubmit [shortPhoneEntry] "123" = .invalidFragment ∧
    submitAndLog [shortPhoneEntry] "123" ts0 none =
      (.invalidFragment, none) ∧
    SubmitOutcome.invalidFragment ≠ .unique shortPhoneEntry := by
  refine ⟨by decide, by decide, by decide, by decide⟩

/-! ### C3 — ambiguous match surfaces the full filtered candidate list -/

/-- Amended C3: for a fragment carrying at least 4 digits that matches at
least two roster entries, the handler surfaces exactly the filtered
sub-roster as candidates: every candidate's `PhoneLast4` equals the
normalized fragment, and the candidate list is a sublist of the roster in
roster order (the filter is order-preserving). -/
theorem ambiguous_match_candidates (roster : List RosterEntry)
    (input : String)
    (hlen : 4 ≤ (clean_phone input).length)
    (hk : 2 ≤ (roster.filter
      (fun e => decide (e.phoneLast4 = normalizeFragment input))).length) :
    handleSubmit roster input =
      .ambiguous (roster.filter
        (fun e => decide (e.phoneLast4 = normalizeFragment input))) ∧
    (roster.filter
      (fun e => decide (e.phoneLast4 = normalizeFragment input))).Sublist
      roster ∧
    ∀ e ∈ roster.filter
      (fun e => decide (e.phoneLast4 = normalizeFragment input)),
      e.phoneLast4 = normalizeFragment input := by
  refine ⟨?_, List.filter_sublist _, ?_⟩
  · rw [handleSubmit_of_valid roster input hlen]
    exact resolveFragment_of_many roster _ hk
  · intro e he
    exact of_decide_eq_true (List.mem_filter.mp he).2

/-- Two entries sharing the last four digits `"4321"`. -/
def wEntryB1 : RosterEntry :=
  { fullName := "Ravi Kumar", phone := "9876504321", phoneLast4 := "4321",
    fullNameNorm := "ravi kumar", employeeID := "E1", traineeID := "T1",
    batchStart := "", batchEnd := "" }

/-- Second entry sharing the last four digits `"4321"`. -/
def wEntryB2 : RosterEntry :=
  { fullName := "Meena Iyer", phone := "8765404321", phoneLast4 := "4321",
    fullNameNorm := "meena iyer", employeeID := "E2", traineeID := "T2",
    batchStart := "", batchEnd := "" }

/-- Witness for `ambiguous_match_candidates`: the spec's two-collision
example with fragment `"4321"` produces both candidates. -/
theorem ambiguous_match_candidates_witness :
    handleSubmit [wEntryB1, wEntryB2] "4321" =
      .ambiguous ([wEntryB1, wEntryB2].filter
        (fun e => decide (e.phoneLast4 = normalizeFragment "4321"))) ∧
    ([wEntryB1, wEntryB2].filter
      (fun e => decide (e.phoneLast4 = normalizeFragment "4321"))).length
      = 2 :=
  ⟨(ambiguous_match_candidates [wEntryB1, wEntryB2] "4321"
      (by decide) (by decide)).1, by decide⟩

/-- Counterexample to C3 as stated: both entries of
`[shortPhoneEntry, shortPhoneEntry2]` have `PhoneLast4 = "123"`, so the
normalized fragment `"123"` matches `k = 2 > 1` entries, yet the handler
rejects the submission instead of producing a 2-candidate set. -/
theorem ambiguous_short_match_counterexample :
    ([shortPhoneEntry, shortPhoneEntry2].filter
      (fun e => decide (e.phoneLast4 = normalizeFragment "123"))).length
      = 2 ∧
    handleSubmit [shortPhoneEntry, shortPhoneEntry2] "123" =
      .invalidFragment ∧
    SubmitOutcome.invalidFragment ≠
      .ambiguous [shortPhoneEntry, shortPhoneEntry2] := by
  refine ⟨by decide, by decide, by decide⟩

/-! ### C5 — rejection paths write nothing -/

/-- Amended C5: a submission whose digit-stripped input has fewer than 4
digits is rejected as `invalidFragment`; a submission with at least 4
digits matching zero entries of a NON-EMPTY roster is rejected as
`noMatch`; a submission with at least 4 digits against an EMPTY roster is
rejected with the master-not-loaded notice (not `noMatch`).  In all three
cases the log file is unchanged. -/
theorem rejection_paths_no_write (roster : List RosterEntry) (input : String)
    (ts : Timestamp) (file : Option LogCSV) :
    ((clean_phone input).length < 4 →
      submitAndLog roster input ts file = (.invalidFragment, file)) ∧
    (4 ≤ (clean_phone input).length → roster ≠ [] →
      roster.filter
        (fun e => decide (e.phoneLast4 = normalizeFragment input)) = [] →
      submitAndLog roster input ts file = (.noMatch, file)) ∧
    (4 ≤ (clean_phone input).length → roster = [] →
      submitAndLog roster input ts file = (.masterEmpty, file)) := by
  have hlen : (normalizeFragment input).length =
      min 4 (clean_phone input).length := lastTake_length 4 (clean_phone input)
  refine ⟨?_, ?_, ?_⟩
  · intro h
    have h1 : handleSubmit roster input = .invalidFragment := by
      unfold handleSubmit
      rw [if_pos (by omega)]
    unfold submitAndLog
    rw [h1]
  · intro hv hne hnil
    have h1 : handleSubmit roster input = .noMatch := by
      rw [handleSubmit_of_valid roster input hv]
      exact resolveFragment_of_none roster _ hne hnil
    unfold submitAndLog
    rw [h1]
  · intro hv hempty
    subst hempty
    have h1 : handleSubmit [] input = .masterEmpty := by
      rw [handleSubmit_of_valid [] input hv]
      rfl
    unfold submitAndLog
    rw [h1]

/-- Witness for `rejection_paths_no_write`: the spec's examples `"99"`
(InvalidFragment) and `"0000"` (NoMatch) against the `[Asha Rao]` roster,
plus `"0000"` against the empty roster. -/
theorem rejection_paths_no_write_witness :
    submitAndLog [wEntryAsha] "99" ts0 none = (.invalidFragment, none) ∧
    submitAndLog [wEntryAsha] "0000" ts0 none = (.noMatch, none) ∧
    submitAndLog [] "0000" ts0 none = (.masterEmpty, none) :=
  ⟨(rejection_paths_no_write [wEntryAsha] "99" ts0 none).1 (by decide),
   (rejection_paths_no_write [wEntryAsha] "0000" ts0 none).2.1
     (by decide) (by decide) (by decide),
   (rejection_paths_no_write [] "0000" ts0 none).2.2 (by decide) rfl⟩

/-- Counterexample to C5 as stated: on the EMPTY roster the 4-digit
fragment `"1234"` matches zero roster entries, yet the outcome is the
master-not-loaded notice, not `noMatch` (app.py line 150 checks
`master_df.empty` before matching). -/
theorem empty_roster_not_nomatch_counterexample :
    List.filter (fun e => decide (e.phoneLast4 = normalizeFragment "1234"))
      ([] : List RosterEntry) = [] ∧
    handleSubmit [] "1234" = .masterEmpty ∧
    SubmitOutcome.masterEmpty ≠ .noMatch := by
  refine ⟨by decide, by decide, by decide⟩

/-! ### C6 — loader fault handling -/

/-- C6: the loader handles every fault as a value, never as an unhandled
propagating fault (it is a total function of its inputs): an empty source
URL yields the empty roster with the configuration-missing signal; a fetch
or parse failure yields the empty roster with the source-unavailable signal
carrying the cause text; a source missing a required column yields the
empty roster with the schema-invalid signal naming the (sorted) missing
columns. -/
theorem loader_fault_branches (url cause : String) (df : Table)
    (fetch : Except String Table) :
    load_master_df "" fetch = ([], .configurationMissing) ∧
    (url ≠ "" →
      load_master_df url (.error cause) = ([], .sourceUnavailable cause)) ∧
    (url ≠ "" →
      REQUIRED_COLS.filter (fun c => decide (c ∉ df.columns)) ≠ [] →
      load_master_df url (.ok df) =
        ([], .schemaInvalid
          (REQUIRED_COLS.filter (fun c => decide (c ∉ df.columns))))) := by
  refine ⟨rfl, ?_, ?_⟩
  · intro h
    unfold load_master_df
    rw [if_neg h]
  · intro h hm
    have hb : (REQUIRED_COLS.filter
        (fun c => decide (c ∉ df.columns))).isEmpty = false := by
      rcases hf : REQUIRED_COLS.filter (fun c => decide (c ∉ df.columns)) with
        _ | ⟨a, t⟩
      · exact absurd hf hm
      · rfl
    unfold load_master_df
    rw [if_neg h]
    simp only [hb, Bool.false_eq_true, if_false]

/-- The test table of the spec's schema example: the `Phone` column is
absent from the source. -/
def wTableNoPhone : Table := { columns := ["FullName"], rows := [] }

/-- Witness for `loader_fault_branches` at concrete inputs; the missing
column list is exactly `["Phone"]` as in the spec's example. -/
theorem loader_fault_branches_witness :
    load_master_df "" (.ok wTableNoPhone) = ([], .configurationMissing) ∧
    load_master_df "u" (.error "connection reset") =
      ([], .sourceUnavailable "connection reset") ∧
    load_master_df "u" (.ok wTableNoPhone) = ([], .schemaInvalid ["Phone"]) :=
  ⟨(loader_fault_branches "u" "connection reset" wTableNoPhone
      (.ok wTableNoPhone)).1,
   (loader_fault_branches "u" "connection reset" wTableNoPhone
      (.ok wTableNoPhone)).2.1 (by decide),
   (loader_fault_branches "u" "connection reset" wTableNoPhone
      (.ok wTableNoPhone)).2.2 (by decide) (by decide)⟩

/-! ### C7 — sequential appends from an absent log -/

/-- Appending a batch to an existing log file extends its rows in order and
keeps its header. -/
theorem appendMany_some (items : List (Timestamp × RosterEntry))
    (f : LogCSV) :
    appendMany items (some f) =
      some { header := f.header,
             rows := f.rows ++
               items.map (fun p => recordRow (mkRecord p.1 p.2)) } := by
  induction items generalizing f with
  | nil => simp [appendMany]
  | cons p rest ih =>
      show appendMany rest (some (append_log p.1 p.2 (some f)).1) = _
      rw [ih]
      simp [append_log]

/-- C7: starting from an absent log file, appending n records sequentially
creates the file with the header derived from the `AttendanceRecord` field
list on the first write, and yields exactly the n data rows in submission
order. -/
theorem append_n_records_from_empty (items : List (Timestamp × RosterEntry))
    (h : items ≠ []) :
    appendMany items none =
      some { header := logHeader,
             rows := items.map (fun p => recordRow (mkRecord p.1 p.2)) } ∧
    (items.map (fun p => recordRow (mkRecord p.1 p.2))).length =
      items.length := by
  refine ⟨?_, by simp⟩
  cases items with
  | nil => exact absurd rfl h
  | cons p rest =>
      show appendMany rest (some (append_log p.1 p.2 none).1) = _
      rw [appendMany_some]
      simp [append_log]

/-- Witness for `append_n_records_from_empty`: two sequential markings. -/
theorem append_n_records_from_empty_witness :
    appendMany [(ts0, wEntryB1), (ts0, wEntryB2)] none =
      some { header := logHeader,
             rows := [recordRow (mkRecord ts0 wEntryB1),
                      recordRow (mkRecord ts0 wEntryB2)] } :=
  (append_n_records_from_empty [(ts0, wEntryB1), (ts0, wEntryB2)]
    (by decide)).1

/-! ### C8 — admin clear -/

/-- C8: clearing a log holding m > 0 records deletes the store, so a
subsequent `load_log` query returns the empty record set; clearing is
idempotent — clearing an already-cleared (or missing) store is a no-op and
not an error (`unlink(missing_ok=True)`, app.py line 204). -/
theorem clear_log_empties_idempotent (f : LogCSV) (s : Option LogCSV)
    (_h : 0 < f.rows.length) :
    clear_log (some f) = none ∧
    (load_log (clear_log (some f))).rows = [] ∧
    clear_log (clear_log s) = clear_log s ∧
    clear_log none = none :=
  ⟨rfl, rfl, rfl, rfl⟩

/-- A one-record log file. -/
def wLogOne : LogCSV :=
  { header := logHeader, rows := [recordRow (mkRecord ts0 wEntryAsha)] }

/-- Witness for `clear_log_empties_idempotent` on a one-record log. -/
theorem clear_log_empties_idempotent_witness :
    0 < wLogOne.rows.length ∧
    clear_log (some wLogOne) = none ∧
    (load_log (clear_log (some wLogOne))).rows = [] ∧
    clear_log (clear_log (some wLogOne)) = clear_log (some wLogOne) :=
  ⟨by decide,
   (clear_log_empties_idempotent wLogOne (some wLogOne) (by decide)).1,
   (clear_log_empties_idempotent wLogOne (some wLogOne) (by decide)).2.1,
   (clear_log_empties_idempotent wLogOne (some wLogOne) (by decide)).2.2.1⟩

/-! ### C9 — optional columns are synthesized as empty strings -/

/-- C9: for every source table holding the required columns, each of the
four optional identifier columns that is absent from the source is
synthesized as the empty string for every produced roster entry (every
entry always carries the full fixed field set by construction). -/
theorem optional_columns_synthesized (url : String) (df : Table)
    (hurl : url ≠ "")
    (hfn : "FullName" ∈ df.columns) (hph : "Phone" ∈ df.columns) :
    ∀ e ∈ (load_master_df url (.ok df)).1,
      ("EmployeeID" ∉ df.columns → e.employeeID = "") ∧
      ("TraineeID" ∉ df.columns → e.traineeID = "") ∧
      ("BatchStart" ∉ df.columns → e.batchStart = "") ∧
      ("BatchEnd" ∉ df.columns → e.batchEnd = "") := by
  have hmiss : REQUIRED_COLS.filter (fun c => decide (c ∉ df.columns)) = [] := by
    simp [REQUIRED_COLS, hfn, hph]
  intro e he
  have hload : (load_master_df url (.ok df)).1 =
      df.rows.map (mkEntry df.columns) := by
    unfold load_master_df
    rw [if_neg hurl]
    simp only [hmiss, List.isEmpty_nil, if_true]
  rw [hload] at he
  obtain ⟨row, hrow, rfl⟩ := List.mem_map.mp he
  refine ⟨?_, ?_, ?_, ?_⟩ <;> intro hno <;> simp [mkEntry, optCol, hno]

/-- One source row of the spec's example. -/
def wRow : List (String × String) :=
  [("FullName", "Asha Rao"), ("Phone", "+91 98765-43210")]

/-- A source table with only the two required columns. -/
def wTable : Table := { columns := ["FullName", "Phone"], rows := [wRow] }

/-- Witness for `optional_columns_synthesized`: the entry loaded from a
source without any optional column has all four identifiers empty. -/
theorem optional_columns_synthesized_witness :
    (mkEntry wTable.columns wRow).employeeID = "" ∧
    (mkEntry wTable.columns wRow).traineeID = "" ∧
    (mkEntry wTable.columns wRow).batchStart = "" ∧
    (mkEntry wTable.columns wRow).batchEnd = "" := by
  have hmem : mkEntry wTable.columns wRow ∈
      (load_master_df "u" (.ok wTable)).1 := by
    have hv : (load_master_df "u" (.ok wTable)).1 =
        [mkEntry wTable.columns wRow] := rfl
    rw [hv]
    exact List.mem_singleton_self _
  have h := optional_columns_synthesized "u" wTable (by decide) (by decide)
    (by decide) (mkEntry wTable.columns wRow) hmem
  exact ⟨h.1 (by decide), h.2.1 (by decide), h.2.2.1 (by decide),
    h.2.2.2 (by decide)⟩

/-! ### C4 — disambiguation selection -/

/-- In a duplicate-free list, searching for the `i`-th element finds index
`i` (the behaviour of Python's `list.index` on the chosen option). -/
theorem findIdx_of_nodup (l : List String) (i : Fin l.length)
    (hnd : l.Nodup) :
    l.findIdx (fun y => decide (y = l.get i)) = i := by
  induction l with
  | nil => exact absurd i.isLt (by simp)
  | cons a t ih =>
      rcases i with ⟨iv, hiv⟩
      cases iv with
      | zero => simp [List.findIdx_cons]
      | succ j =>
          have hj : j < t.length := by simpa using hiv
          have ha : a ∉ t := (List.nodup_cons.mp hnd).1
          have hne : a ≠ t.get ⟨j, hj⟩ := by
            intro he
            exact ha (he ▸ List.get_mem t j hj)
          have hget : (a :: t).get ⟨j + 1, hiv⟩ = t.get ⟨j, hj⟩ := rfl
          rw [hget]
          simp only [List.findIdx_cons, decide_eq_false hne, cond_false]
          rw [ih ⟨j, hj⟩ (List.nodup_cons.mp hnd).2]

/-- Amended C4: when the candidates' display labels are pairwise distinct,
selecting index `i` of the presented list resolves to candidate `i` and the
record written is built from candidate `i`'s data.  (When two candidates
render the same label, `options.index(choice)` returns the FIRST of them —
see the counterexample.) -/
theorem selection_writes_selected_candidate (cands : List RosterEntry)
    (i : Nat) (ts : Timestamp) (file : Option LogCSV)
    (hnd : (cands.map candidateLabel).Nodup) (hi : i < cands.length) :
    selectCandidate cands i = some (cands.get ⟨i, hi⟩) ∧
    selectAndLog cands i ts file =
      some (append_log ts (cands.get ⟨i, hi⟩) file) ∧
    (selectAndLog cands i ts file).map (fun r => r.2) =
      some (mkRecord ts (cands.get ⟨i, hi⟩)) := by
  have hi' : i < (cands.map candidateLabel).length := by
    simpa using hi
  have hget : (cands.map candidateLabel).get? i =
      some ((cands.map candidateLabel).get ⟨i, hi'⟩) := List.get?_eq_get hi'
  have hfind := findIdx_of_nodup (cands.map candidateLabel) ⟨i, hi'⟩ hnd
  have h1 : selectCandidate cands i = some (cands.get ⟨i, hi⟩) := by
    unfold selectCandidate
    simp only [hget, hfind]
    exact List.get?_eq_get hi
  refine ⟨h1, ?_, ?_⟩
  · unfold selectAndLog
    rw [h1]
    rfl
  · unfold selectAndLog
    rw [h1]
    cases file <;> rfl

/-- Witness for `selection_writes_selected_candidate`: the spec's
two-candidate example; selecting index 1 writes the second candidate's
data. -/
theorem selection_writes_selected_candidate_witness :
    selectCandidate [wEntryB1, wEntryB2] 1 = some wEntryB2 ∧
    (selectAndLog [wEntryB1, wEntryB2] 1 ts0 none).map (fun r => r.2) =
      some (mkRecord ts0 wEntryB2) := by
  have h := selection_writes_selected_candidate [wEntryB1, wEntryB2] 1 ts0
    none (by decide) (by decide)
  exact ⟨h.1, h.2.2⟩

/-- First entry of the label-collision roster: its `FullName` happens to
spell out the label suffix, so it renders identically to `cexE1`. -/
def cexE0 : RosterEntry :=
  { fullName := "X (Emp:A, Trainee:B", phone := "4321", phoneLast4 := "4321",
    fullNameNorm := "x (emp:a, trainee:b", employeeID := "", traineeID := "",
    batchStart := "", batchEnd := "" }

/-- Second entry of the label-collision roster: different `FullName`,
`EmployeeID` and `TraineeID`, yet the same rendered label as `cexE0`. -/
def cexE1 : RosterEntry :=
  { fullName := "X", phone := "4321", phoneLast4 := "4321",
    fullNameNorm := "x", employeeID := "A",
    traineeID := "B (Emp:, Trainee:", batchStart := "", batchEnd := "" }

/-- Counterexample to C4 as stated: the fragment `"4321"` matches both
entries, the two candidates render the SAME select-box label, and when the
caller selects index 1, `options.index(choice)` (app.py line 166) resolves
to the first occurrence, so the record written carries candidate 0's
`FullName`, not candidate 1's. -/
theorem selection_label_collision_counterexample :
    handleSubmit [cexE0, cexE1] "4321" = .ambiguous [cexE0, cexE1] ∧
    candidateLabel cexE0 = candidateLabel cexE1 ∧
    selectCandidate [cexE0, cexE1] 1 = some cexE0 ∧
    (selectAndLog [cexE0, cexE1] 1 ts0 none).map (fun r => r.2.fullName) =
      some cexE0.fullName ∧
    cexE0.fullName ≠ cexE1.fullName := by
  refine ⟨by decide, by decide, by decide, by decide, by decide⟩
